/-
  Verification of the UDP telemetry bridge of phpvms-linux-client
  (src/udp_bridge.py), as a shallow embedding in Lean 4.

  JSON payloads are modelled by an inductive `Json` value type that keeps the
  Python-relevant distinctions (ints vs floats, bools being instances of int).
  Python floats are modelled by rationals.  The bridge object's mutable fields
  become a `BridgeState` record and each method becomes a state-passing
  function.  External effects (the socket, wall-clock timestamps, and the
  outcome of `FlightProgressTracker.send_position`, whose class is not part of
  this repository snapshot) are threaded in as explicit parameters.
-/
import Mathlib

set_option maxHeartbeats 1000000

namespace UdpBridgeModel

/-- JSON value as produced by Python's `json.loads`:  integer and fractional
numbers are distinct Python types (`int` vs `float`), and objects are modelled
as association lists (a parsed dict has no duplicate keys; lookup takes the
first match). -/
inductive Json where
  | null
  | bool (b : Bool)
  | int (n : Int)
  | float (q : ℚ)
  | str (s : String)
  | arr (xs : List Json)
  | obj (kvs : List (String × Json))

/-- Python truthiness of a JSON-decoded value (`bool(x)`). -/
def truthy : Json → Bool
  | .null => false
  | .bool b => b
  | .int n => n ≠ 0
  | .float q => q ≠ 0
  | .str s => s ≠ ""
  | .arr xs => !xs.isEmpty
  | .obj kvs => !kvs.isEmpty

/-- First-match lookup in an object's key/value list (dict lookup). -/
def lookupKey : List (String × Json) → String → Option Json
  | [], _ => none
  | (k, v) :: rest, key => if k = key then some v else lookupKey rest key

/-- Python `d.get(key)`: `None` (here `Json.null`) when the key is absent. -/
def pyGet (kvs : List (String × Json)) (k : String) : Json :=
  (lookupKey kvs k).getD .null

/-- Python `d[key]`: raises `KeyError` when the key is absent. -/
def pyIndex (kvs : List (String × Json)) (k : String) : Except String Json :=
  match lookupKey kvs k with
  | some v => .ok v
  | none => .error ("KeyError: " ++ k)

/-- Numeric value of a run of decimal digits (no validity check). -/
def digitsVal (cs : List Char) : Nat :=
  cs.foldl (fun a c => a * 10 + (c.toNat - 48)) 0

/-- `int(s)` on a string: optional sign then a nonempty digit run, surrounding
whitespace stripped.  (Python also accepts digit-group underscores; no claim
exercises that and it is not modelled.) -/
def parseIntStr (s : String) : Option Int :=
  let cs := s.trim.toList
  let core : List Char → Option Nat := fun l =>
    if l ≠ [] ∧ l.all Char.isDigit then some (digitsVal l) else none
  match cs with
  | '+' :: rest => (core rest).map Int.ofNat
  | '-' :: rest => (core rest).map (fun n => -(n : Int))
  | _ => (core cs).map Int.ofNat

/-- `float(s)` on a string: optional sign, decimal digits with at most one
point, not both sides empty.  (Exponents, `inf`/`nan` and underscores are not
modelled; no claim exercises them.) -/
def parseFloatStr (s : String) : Option ℚ :=
  let cs := s.trim.toList
  let signed : ℚ × List Char :=
    match cs with
    | '+' :: rest => (1, rest)
    | '-' :: rest => (-1, rest)
    | _ => (1, cs)
  let sign := signed.1
  let body := signed.2
  let ip := body.takeWhile (· ≠ '.')
  let rest := body.dropWhile (· ≠ '.')
  match rest with
  | [] =>
    if ip ≠ [] ∧ ip.all Char.isDigit then some (sign * (digitsVal ip : ℚ)) else none
  | _ :: fp =>
    if (ip ≠ [] ∨ fp ≠ []) ∧ ip.all Char.isDigit ∧ fp.all Char.isDigit then
      some (sign * ((digitsVal ip : ℚ) + (digitsVal fp : ℚ) / (10 ^ fp.length)))
    else none

/-- `int()` applied to a float truncates toward zero. -/
def ratTrunc (q : ℚ) : Int :=
  if 0 ≤ q then ⌊q⌋ else ⌈q⌉

/-- `isinstance(x, int)` — true for Python ints and for bools. -/
def isIntInstance : Json → Bool
  | .int _ => true
  | .bool _ => true
  | _ => false

/-- The integer a Python int-instance denotes (`True == 1`, `False == 0`). -/
def intInstanceVal : Json → Int
  | .int n => n
  | .bool b => if b then 1 else 0
  | _ => 0

/-- Python `int(x)` on a decoded JSON value (raises on None/list/dict and on
non-numeric strings). -/
def pyInt : Json → Except String Int
  | .int n => .ok n
  | .bool b => .ok (if b then 1 else 0)
  | .float q => .ok (ratTrunc q)
  | .str s =>
    match parseIntStr s with
    | some n => .ok n
    | none => .error ("invalid literal for int(): " ++ s)
  | .null => .error "int() argument must not be None"
  | .arr _ => .error "int() argument must not be a list"
  | .obj _ => .error "int() argument must not be a dict"

/-- Python `float(x)` on a decoded JSON value. -/
def pyFloat : Json → Except String ℚ
  | .int n => .ok (n : ℚ)
  | .bool b => .ok (if b then 1 else 0)
  | .float q => .ok q
  | .str s =>
    match parseFloatStr s with
    | some q => .ok q
    | none => .error ("could not convert string to float: " ++ s)
  | .null => .error "float() argument must not be None"
  | .arr _ => .error "float() argument must not be a list"
  | .obj _ => .error "float() argument must not be a dict"

/-- Python `str(x)` as used when interpolating values into log lines.  The
rendering of floats and of composite values is an approximation (the model
prints rationals); no claim inspects these characters. -/
def pyStr : Json → String
  | .null => "None"
  | .bool true => "True"
  | .bool false => "False"
  | .int n => toString n
  | .float q => toString q
  | .str s => s
  | .arr _ => "[...]"
  | .obj _ => "\x7b...\x7d"

/-! ## Rolling log (`UdpBridge._append_log`, src/udp_bridge.py lines 252-258) -/

/-- `self._max_log_lines = 500`. -/
def maxLogLines : Nat := 500

/-- The formatted log entry `f"[\x7bts\x7d] \x7bline\x7d"`; the wall-clock
timestamp string is an explicit parameter. -/
def logEntry (ts line : String) : String := "[" ++ ts ++ "] " ++ line

/-- Python's `l[-n:]`: the last `n` elements. -/
def keepLast (n : Nat) (l : List α) : List α := l.drop (l.length - n)

/-- `UdpBridge._append_log`: append the timestamped entry, then trim to the
most recent `maxLogLines` lines. -/
def appendLog (log : List String) (ts line : String) : List String :=
  let l2 := log ++ [logEntry ts line]
  if l2.length > maxLogLines then keepLast maxLogLines l2 else l2

/-! ## Bridge state (`UdpBridge.__init__`, src/udp_bridge.py lines 34-61)

The worker thread / stop event / live-worker bookkeeping of the `threading`
objects is modelled by the `thread`, `stopEvt` and `workers` fields:
`thread = none` is `_thread is None`, `thread = some b` holds the thread's
`is_alive()` value, and `workers` counts currently-live worker threads. -/

structure BridgeState where
  host : String
  port : Int
  /-- `_pirep_id_provider`: `none` = no callable provider; `some r` = a
  provider whose call returns `r` (`none` = Python `None`).  A provider that
  raises behaves like one returning `None` (both leave the packet without a
  resolved id), so it is folded into `some none`. -/
  provider : Option (Option Int)
  running : Bool
  packets_ok : Nat
  packets_err : Nat
  last_packet_time : Option ℚ
  last_error : Option String
  last_pirep_id : Option Int
  /-- `_last_status` holds whatever (truthy) payload value was stored. -/
  last_status : Option Json
  last_position : Option (List (String × Json))
  log : List String
  /-- `_trackers`: pirep_id → tracker instance, instances numbered by
  creation order so that distinct instances compare unequal. -/
  trackers : List (Int × Nat)
  nextTracker : Nat
  thread : Option Bool
  stopEvt : Bool
  workers : Nat

/-- The freshly constructed bridge (`UdpBridge.__init__`; the `api_client`
argument is only handed on to trackers and carries no bridge state). -/
def initState (host : String) (port : Int) (provider : Option (Option Int)) :
    BridgeState :=
  { host := host, port := port, provider := provider, running := false,
    packets_ok := 0, packets_err := 0, last_packet_time := none,
    last_error := none, last_pirep_id := none, last_status := none,
    last_position := none, log := [], trackers := [], nextTracker := 0,
    thread := none, stopEvt := false, workers := 0 }

/-! ## Public control (`UdpBridge.start` / `UdpBridge.stop`, lines 64-76) -/

/-- `start()`: if a thread exists and is alive, return; else clear the stop
event and launch a fresh worker. -/
def start (st : BridgeState) : BridgeState :=
  match st.thread with
  | some true => st
  | _ => { st with stopEvt := false, thread := some true,
                   workers := st.workers + 1 }

/-- `stop()`: set the stop event; if a live thread exists, join it (the worker
observes the flag within its 0.5 s receive timeout and exits — the model takes
the cooperative path, in which the join completes inside the 2 s bound); then
set `running := false` under the lock. -/
def stop (st : BridgeState) : BridgeState :=
  let st1 := { st with stopEvt := true }
  let st2 :=
    match st1.thread with
    | some true => { st1 with thread := some false,
                              workers := st1.workers - 1 }
    | _ => st1
  { st2 with running := false }

/-! ## Tracker cache (`UdpBridge._get_tracker`, lines 246-250) -/

/-- First-match lookup among the cached trackers. -/
def lookupTracker : List (Int × Nat) → Int → Option Nat
  | [], _ => none
  | (k, v) :: rest, pid => if k = pid then some v else lookupTracker rest pid

/-- `_get_tracker`: create a tracker on demand (`FlightProgressTracker(...)`,
numbered by creation order), then return the cached instance. -/
def getTracker (st : BridgeState) (pid : Int) : Nat × BridgeState :=
  match lookupTracker st.trackers pid with
  | some t => (t, st)
  | none =>
    (st.nextTracker,
     { st with trackers := (pid, st.nextTracker) :: st.trackers,
               nextTracker := st.nextTracker + 1 })

/-! ## Packet handling (`UdpBridge._handle_packet`, lines 143-244) -/

/-- Resolution of `pirep_id` (lines 154-167): take the payload value if it is
an int instance; else try `int(...)` coercion; else fall back to the UI
provider (a provider returning `None`, raising, or being absent all leave the
id unresolved). -/
def resolvePirepId (provider : Option (Option Int)) (raw : Json) : Option Int :=
  if isIntInstance raw then some (intInstanceVal raw)
  else
    match pyInt raw with
    | .ok n => some n
    | .error _ => provider.bind id

/-- The argument record of `tracker.send_position` (lines 204-211). -/
structure SendArgs where
  lat : ℚ
  lon : ℚ
  altitude : Json
  heading : Json
  gs : Json
  simTime : Json

/-- The keys projected into `_last_position` (lines 174 and 219-221). -/
def sixKeys : List String := ["lat", "lon", "altitude", "heading", "gs", "sim_time"]

/-- `\x7bk: pos.get(k) for k in ("lat", "lon", "altitude", "heading", "gs",
"sim_time")\x7d`. -/
def sixProj (kvs : List (String × Json)) : List (String × Json) :=
  sixKeys.map (fun k => (k, pyGet kvs k))

/-- The body of the `try` around `tracker.send_position` (lines 202-211):
compute the altitude fallback, coerce `pos["lat"]`/`pos["lon"]` with `float`
(raising `KeyError` on absence), then invoke the send.  `send` abstracts the
tracker method's externally-determined outcome. -/
def sendAttempt (send : SendArgs → Except String Unit)
    (kvs : List (String × Json)) : Except String Unit := do
  let altVal :=
    match pyGet kvs "altitude" with
    | .null => pyGet kvs "altitude_msl"
    | a => a
  let latJ ← pyIndex kvs "lat"
  let lat ← pyFloat latJ
  let lonJ ← pyIndex kvs "lon"
  let lon ← pyFloat lonJ
  send { lat := lat, lon := lon, altitude := altVal,
         heading := pyGet kvs "heading", gs := pyGet kvs "gs",
         simTime := pyGet kvs "sim_time" }

/-- The concise per-packet success log line (lines 239-244). -/
def okLine (pid : Int) (status : Json) (lastPos : Option (List (String × Json))) :
    String :=
  let s := if truthy status then pyStr status else "-"
  let p := lastPos.getD []
  "OK: id=" ++ toString pid ++ " st=" ++ s ++
    " lat=" ++ pyStr (pyGet p "lat") ++ " lon=" ++ pyStr (pyGet p "lon") ++
    " alt=" ++ pyStr (pyGet p "altitude") ++ " gs=" ++ pyStr (pyGet p "gs")

/-- `UdpBridge._handle_packet`.  `decoded` is the outcome of
`json.loads(data.decode("utf-8"))`; `now` is `time.time()` and `ts` the
log-timestamp string; `send pid` is the outcome of `send_position` on the
tracker for `pid`.  An `.error` result is an exception escaping the method
(only possible when the decoded payload is not a dict, whose `.get` raises
`AttributeError`); it is caught by the receive loop.  The phase-update and
event-posting blocks of the source are commented out and contribute nothing.
-/
def handlePacket (send : Int → SendArgs → Except String Unit)
    (st : BridgeState) (now : ℚ) (ts : String)
    (decoded : Except String Json) : Except String BridgeState :=
  match decoded with
  | .error e =>
    let msg := "JSON decode error: " ++ e
    .ok { st with packets_err := st.packets_err + 1, last_error := some msg,
                  log := appendLog st.log ts msg }
  | .ok (.obj kvs) =>
    match resolvePirepId st.provider (pyGet kvs "pirep_id") with
    | none =>
      -- Lines 169-180: no active PIREP; record status/position for the UI,
      -- count the packet as ok, skip API calls.
      let s := pyGet kvs "status"
      let st1 := { st with last_status := if truthy s then some s else st.last_status }
      let p0 := pyGet kvs "position"
      let p1 := if truthy p0 then p0 else Json.obj []
      let st2 :=
        match p1 with
        | .obj pkvs => { st1 with last_position := some (sixProj pkvs) }
        | _ => st1
      .ok { st2 with packets_ok := st2.packets_ok + 1,
                     last_packet_time := some now,
                     log := appendLog st2.log ts
                       "OK: no active PIREP; received status/position" }
    | some pid =>
      let st1 := (getTracker st pid).2
      let status := pyGet kvs "status"
      let pos := pyGet kvs "position"
      let st2 :=
        match pos with
        | .obj pkvs =>
          match sendAttempt (send pid) pkvs with
          | .error e =>
            let msg := "send_position: " ++ e
            { st1 with packets_err := st1.packets_err + 1,
                       last_error := some msg,
                       log := appendLog st1.log ts msg }
          | .ok _ => { st1 with last_position := some (sixProj pkvs) }
        | _ => st1
      .ok { st2 with packets_ok := st2.packets_ok + 1,
                     last_packet_time := some now,
                     last_pirep_id := some pid,
                     log := appendLog st2.log ts
                       (okLine pid status st2.last_position) }
  | .ok _ => .error "AttributeError: object has no attribute get"

/-! ## Receive loop (`UdpBridge._run`, lines 108-141) -/

/-- One iteration's input: a receive timeout (checked against the stop event,
neither logged nor counted) or a datagram with its decode outcome. -/
inductive RecvEvent where
  | timeout
  | data (decoded : Except String Json)

/-- One iteration of the receive loop body (lines 124-135): timeouts just
continue; an exception escaping `_handle_packet` is caught, counted and
logged with an `ERR:` line. -/
def loopStep (send : Int → SendArgs → Except String Unit)
    (st : BridgeState) (ev : ℚ × String × RecvEvent) : BridgeState :=
  match ev.2.2 with
  | .timeout => st
  | .data d =>
    match handlePacket send st ev.1 ev.2.1 d with
    | .ok st' => st'
    | .error e =>
      { st with packets_err := st.packets_err + 1, last_error := some e,
                log := appendLog st.log ev.2.1 ("ERR: " ++ e) }

/-- The receive loop over a finite trace of events. -/
def runLoop (send : Int → SendArgs → Except String Unit)
    (st : BridgeState) (evs : List (ℚ × String × RecvEvent)) : BridgeState :=
  evs.foldl (loopStep send) st

/-- The socket set-up phase of `_run` (lines 108-122): on a successful bind,
set `running`, log the listening line and enter the loop; on a bind failure,
record `last_error`, log it, clear `running`, close the socket and return
without entering the loop.  Result: (state, socket still open, loop entered).
-/
def runSetup (st : BridgeState) (ts : String) (bindRes : Except String Unit) :
    BridgeState × Bool × Bool :=
  match bindRes with
  | .ok _ =>
    ({ st with running := true,
               log := appendLog st.log ts
                 ("UDP bridge listening on " ++ st.host ++ ":" ++ toString st.port) },
     true, true)
  | .error e =>
    let msg := "Bind failed: " ++ e
    ({ st with last_error := some msg, log := appendLog st.log ts msg,
               running := false },
     false, false)

/-! ## Status snapshot (`UdpBridge.status_snapshot`, lines 91-105)

The returned dict is modelled as a key/value list; `dict(self._last_position)`
and `list(self._log)` are fresh copies, which at the value level of the model
means the snapshot rebuilds these values from the state. -/

def statusSnapshot (st : BridgeState) : List (String × Json) :=
  [("running", .bool st.running),
   ("host", .str st.host),
   ("port", .int st.port),
   ("packets_ok", .int (st.packets_ok : Int)),
   ("packets_err", .int (st.packets_err : Int)),
   ("last_packet_time", match st.last_packet_time with
                        | some t => .float t
                        | none => .null),
   ("last_error", match st.last_error with
                  | some e => .str e
                  | none => .null),
   ("last_pirep_id", match st.last_pirep_id with
                     | some i => .int i
                     | none => .null),
   ("last_status", st.last_status.getD .null),
   ("last_position", match st.last_position with
                     | some kvs => .obj kvs
                     | none => .null),
   ("log", .arr (st.log.map .str))]

/-! ## Fuel-used derivation (spec §4.3 / P3)

Modelled from the spec: the fuel-used derivation of the Session State &
Derived-Metrics Engine belongs to a bridge revision that is not part of the
src/ snapshot — src/udp_bridge.py contains no fuel handling, while its caller
current_flight_widget.py still reads the `last_fuel` snapshot key.  Spec
§4.3: "if `initial_fuel_baseline_kg` is unset and a fuel reading arrives, set
the baseline to that first reading (so the very first sample yields
fuel_used=0) ... On every subsequent fuel reading, compute
`fuel_used = max(0, baseline − remaining)` and pass that to the status
handler — never pass raw 'remaining' to callers expecting 'used'." -/

/-- Modelled from the spec: the session-scoped fuel-derivation state of the
Session State & Derived-Metrics Engine (missing from src/). -/
structure FuelEngine where
  /-- `initial_fuel_baseline_kg`: captured once per active session. -/
  baseline : Option ℚ

/-- Modelled from the spec: apply one fuel reading (kg remaining); returns the
updated engine and the `fuel_used` value passed to the status handler. -/
def applyFuelReading (e : FuelEngine) (remaining : ℚ) : FuelEngine × ℚ :=
  let b := e.baseline.getD remaining
  (⟨some b⟩, max 0 (b - remaining))

/-- Modelled from the spec: fold a sequence of fuel readings, collecting the
`fuel_used` value handed to the status handler for each. -/
def runFuelReadings (e : FuelEngine) (rs : List ℚ) : FuelEngine × List ℚ :=
  rs.foldl
    (fun acc r =>
      let step := applyFuelReading acc.1 r
      (step.1, acc.2 ++ [step.2]))
    (e, [])

/-! ## Auxiliary definitions used by the verification -/

/-- A decoded datagram that is a JSON object (a well-formed datagram in the
claims' sense: valid UTF-8, valid JSON, top-level object). -/
def isObjPacket : Json → Bool
  | .obj _ => true
  | _ => false

/-- A packet (already decoded to JSON) whose processing takes no error path:
either it is handled by the no-active-PIREP branch, or its `position` (when a
dict) has `float`-coercible `lat`/`lon` and the position send succeeds. -/
def cleanPacket (provider : Option (Option Int))
    (send : Int → SendArgs → Except String Unit) (p : Json) : Bool :=
  match p with
  | .obj kvs =>
    match resolvePirepId provider (pyGet kvs "pirep_id") with
    | none => true
    | some pid =>
      match pyGet kvs "position" with
      | .obj pkvs =>
        match sendAttempt (send pid) pkvs with
        | .ok _ => true
        | .error _ => false
      | _ => true
  | _ => false

/-- Well-formedness of the tracker cache: instance numbers are below the
creation counter, and neither ids nor instance numbers repeat. -/
def trackersInv (st : BridgeState) : Prop :=
  (∀ p ∈ st.trackers, p.2 < st.nextTracker) ∧
  (st.trackers.map Prod.fst).Nodup ∧
  (st.trackers.map Prod.snd).Nodup

/-- A send whose outcome is always success. -/
def sendOkDef : Int → SendArgs → Except String Unit := fun _ _ => .ok ()

/-- A send that raises on every call. -/
def sendFailDef : Int → SendArgs → Except String Unit := fun _ _ => .error "boom"

/-- 600 log appends, for exercising the 500-line cap. -/
def logEvents600 : List (String × String) :=
  (List.range 600).map (fun i => ("t", toString i))

/-- A sparse but well-formed JSON object datagram: its `position` dict has no
`lat`, so `float(pos["lat"])` raises `KeyError`. -/
def sparsePosPacket : Json :=
  .obj [("pirep_id", .int 1), ("position", .obj [])]

/-- A status-only datagram carrying a pirep id. -/
def statusOnlyPacket : Json :=
  .obj [("pirep_id", .int 1), ("status", .str "ENR")]

/-- A position-only datagram carrying a pirep id. -/
def posOnlyPacket : Json :=
  .obj [("pirep_id", .int 1),
        ("position", .obj [("lat", .float 40), ("lon", .float (-73))])]

/-- A fully-populated well-formed datagram. -/
def fullPacket : Json :=
  .obj [("pirep_id", .int 1), ("status", .str "ENR"),
        ("position", .obj [("lat", .float 40), ("lon", .float (-73))])]

/-- A coercible position record (for exercising a failing send). -/
def failPosKvs : List (String × Json) := [("lat", .float 1), ("lon", .float 2)]

/-- The key/value list of a datagram whose position send will be attempted. -/
def failPacketKvs : List (String × Json) :=
  [("pirep_id", .int 7), ("position", .obj failPosKvs)]

/-! ## Lemmas -/

lemma applyFuelReading_some (b r : ℚ) :
    applyFuelReading ⟨some b⟩ r = (⟨some b⟩, max 0 (b - r)) := rfl

lemma runFuel_fixed_baseline (b : ℚ) (rs : List ℚ) (acc : List ℚ) :
    rs.foldl
      (fun acc r =>
        let step := applyFuelReading acc.1 r
        (step.1, acc.2 ++ [step.2]))
      ((⟨some b⟩ : FuelEngine), acc)
      = (⟨some b⟩, acc ++ rs.map (fun r => max 0 (b - r))) := by
  induction rs generalizing acc with
  | nil => simp
  | cons r rest ih =>
    simp only [List.foldl_cons, applyFuelReading_some, List.map_cons]
    rw [ih]
    simp

/-- C1: while the bridge session has no fuel baseline, the first fuel reading
R₀ sets the baseline and yields fuel_used = 0 for the status handler; every
subsequent reading R yields fuel_used = max(0, R₀ − R), never negative, and
what is handed on is always this derived "used" quantity, not the raw
"remaining" reading. -/
theorem fuel_used_derivation (R0 : ℚ) (rs : List ℚ) :
    (runFuelReadings ⟨none⟩ (R0 :: rs)).2
        = 0 :: rs.map (fun r => max 0 (R0 - r)) ∧
    (runFuelReadings ⟨none⟩ (R0 :: rs)).1.baseline = some R0 ∧
    ∀ u ∈ (runFuelReadings ⟨none⟩ (R0 :: rs)).2, 0 ≤ u := by
  have hstep : applyFuelReading ⟨none⟩ R0 = (⟨some R0⟩, 0) := by
    simp [applyFuelReading]
  have hrun : runFuelReadings ⟨none⟩ (R0 :: rs)
      = (⟨some R0⟩, 0 :: rs.map (fun r => max 0 (R0 - r))) := by
    unfold runFuelReadings
    simp only [List.foldl_cons, hstep]
    have := runFuel_fixed_baseline R0 rs [0]
    simpa using this
  refine ⟨by rw [hrun], by rw [hrun], ?_⟩
  rw [hrun]
  intro u hu
  rcases List.mem_cons.mp hu with h | h
  · simp [h]
  · rcases List.mem_map.mp h with ⟨r, _, hr⟩
    rw [← hr]
    exact le_max_left 0 _

lemma keepLast_of_le (n : Nat) (l : List α) (h : l.length ≤ n) :
    keepLast n l = l := by
  unfold keepLast
  rw [Nat.sub_eq_zero_of_le h, List.drop_zero]

lemma appendLog_eq_keepLast (l : List String) (ts line : String) :
    appendLog l ts line = keepLast maxLogLines (l ++ [logEntry ts line]) := by
  unfold appendLog
  dsimp only
  split
  · rfl
  · rw [keepLast_of_le]
    omega

lemma appendLog_length_le (l : List String) (ts line : String) :
    (appendLog l ts line).length ≤ maxLogLines := by
  unfold appendLog
  dsimp only
  split
  · unfold keepLast
    rw [List.length_drop]
    omega
  · omega

lemma keepLast_append_left (n : Nat) (xs ys : List α) :
    keepLast n (keepLast n xs ++ ys) = keepLast n (xs ++ ys) := by
  rcases le_or_lt xs.length n with h | h
  · rw [keepLast_of_le n xs h]
  · unfold keepLast
    rw [List.length_append, List.length_drop, List.length_append]
    have hdrop : List.drop (xs.length - n) xs ++ ys
        = List.drop (xs.length - n) (xs ++ ys) := by
      rw [List.drop_append_of_le_length (Nat.sub_le _ _)]
    rw [hdrop, List.drop_drop]
    congr 1
    omega

lemma foldl_appendLog (l0 : List String) (es : List (String × String))
    (h : l0.length ≤ maxLogLines) :
    es.foldl (fun l p => appendLog l p.1 p.2) l0
      = keepLast maxLogLines (l0 ++ es.map (fun p => logEntry p.1 p.2)) := by
  induction es generalizing l0 with
  | nil => simp [keepLast_of_le _ _ h]
  | cons e rest ih =>
    simp only [List.foldl_cons, List.map_cons]
    rw [ih _ (appendLog_length_le _ _ _), appendLog_eq_keepLast,
        keepLast_append_left]
    simp

/-- C7: starting from any log within the 500-line cap, any sequence of
appends leaves at most 500 lines, and the retained lines are exactly the most
recent 500 entries (oldest evicted first, original order kept): the log equals
the 500-suffix of the full append history. -/
theorem log_bound_ring_buffer (l0 : List String) (es : List (String × String))
    (h : l0.length ≤ maxLogLines) :
    (es.foldl (fun l p => appendLog l p.1 p.2) l0).length ≤ maxLogLines ∧
    es.foldl (fun l p => appendLog l p.1 p.2) l0
      = keepLast maxLogLines (l0 ++ es.map (fun p => logEntry p.1 p.2)) := by
  refine ⟨?_, foldl_appendLog l0 es h⟩
  rw [foldl_appendLog l0 es h]
  unfold keepLast
  rw [List.length_drop]
  omega

/-- C7 witness: 600 appends to an empty log leave exactly the most recent 500
entries. -/
theorem log_bound_ring_buffer_witness :
    ([] : List String).length ≤ maxLogLines ∧
    ((logEvents600.foldl (fun l p => appendLog l p.1 p.2) ([] : List String)).length
        ≤ maxLogLines ∧
     logEvents600.foldl (fun l p => appendLog l p.1 p.2) ([] : List String)
        = keepLast maxLogLines
            (([] : List String) ++ logEvents600.map (fun p => logEntry p.1 p.2))) :=
  ⟨by decide, log_bound_ring_buffer [] logEvents600 (by decide)⟩

/-- C8: `start()` while the worker is alive is a no-op (a second `start()`
changes nothing and exactly one worker remains); `stop()` before any
`start()` only records the cancellation request (every observable field —
`running`, counters, log, worker count — is untouched, and a later `start()`
behaves as from the fresh state); `stop()` twice in a row equals `stop()`
once; and after any `stop()` the running flag is false.  All operations are
total functions, so none raises. -/
theorem start_stop_idempotence (host : String) (port : Int)
    (pr : Option (Option Int)) (s : BridgeState) :
    start (start s) = start s ∧
    (start (initState host port pr)).workers = 1 ∧
    stop (initState host port pr) = { initState host port pr with stopEvt := true } ∧
    start (stop (initState host port pr)) = start (initState host port pr) ∧
    stop (stop s) = stop s ∧
    (stop s).running = false := by
  refine ⟨?_, rfl, rfl, rfl, ?_, ?_⟩
  · unfold start
    cases hth : s.thread with
    | none => simp
    | some b => cases b <;> simp [hth]
  · unfold stop
    cases hth : s.thread with
    | none => simp
    | some b => cases b <;> simp
  · unfold stop
    cases s.thread <;> rfl

/-- C9: when the bind raises during a start attempt, `_run` records the error
in `last_error`, appends it to the log, leaves `running` false, closes the
socket, and returns without entering the receive loop (so no thread keeps
receiving); the counters are untouched.  `runSetup` is a total function: the
failure never propagates as an exception — it is observable only through the
state (snapshot/log). -/
theorem bind_failure_handling (st : BridgeState) (ts e : String) :
    (runSetup st ts (.error e)).1.last_error = some ("Bind failed: " ++ e) ∧
    (runSetup st ts (.error e)).1.log
        = appendLog st.log ts ("Bind failed: " ++ e) ∧
    (runSetup st ts (.error e)).1.running = false ∧
    (runSetup st ts (.error e)).2.1 = false ∧
    (runSetup st ts (.error e)).2.2 = false ∧
    (runSetup st ts (.error e)).1.packets_ok = st.packets_ok ∧
    (runSetup st ts (.error e)).1.packets_err = st.packets_err :=
  ⟨rfl, rfl, rfl, rfl, rfl, rfl, rfl⟩

lemma lookupTracker_some_mem_snd {l : List (Int × Nat)} {k : Int} {v : Nat}
    (h : lookupTracker l k = some v) : v ∈ l.map Prod.snd := by
  induction l with
  | nil => simp [lookupTracker] at h
  | cons hd tl ih =>
    rw [lookupTracker] at h
    by_cases h1 : hd.1 = k
    · rw [if_pos h1] at h
      injection h with h
      simp [← h]
    · rw [if_neg h1] at h
      simp [ih h]

lemma lookupTracker_some_mem {l : List (Int × Nat)} {k : Int} {v : Nat}
    (h : lookupTracker l k = some v) : (k, v) ∈ l := by
  induction l with
  | nil => simp [lookupTracker] at h
  | cons hd tl ih =>
    rw [lookupTracker] at h
    by_cases h1 : hd.1 = k
    · rw [if_pos h1] at h
      injection h with h
      have : hd = (k, v) := by
        rw [Prod.ext_iff]
        exact ⟨h1, h⟩
      rw [this]
      exact List.mem_cons_self _ _
    · rw [if_neg h1] at h
      exact List.mem_cons_of_mem _ (ih h)

lemma lookupTracker_none_not_mem_fst {l : List (Int × Nat)} {k : Int}
    (h : lookupTracker l k = none) : k ∉ l.map Prod.fst := by
  induction l with
  | nil => simp
  | cons hd tl ih =>
    rw [lookupTracker] at h
    by_cases h1 : hd.1 = k
    · rw [if_pos h1] at h
      cases h
    · rw [if_neg h1] at h
      simp only [List.map_cons, List.mem_cons]
      rintro (h2 | h2)
      · exact h1 h2.symm
      · exact ih h h2

lemma lookup_ne_of_nodup_snd {l : List (Int × Nat)}
    (hnd : (l.map Prod.snd).Nodup) {k k' : Int} {a b : Nat} (hk : k ≠ k')
    (ha : lookupTracker l k = some a) (hb : lookupTracker l k' = some b) :
    a ≠ b := by
  induction l with
  | nil => simp [lookupTracker] at ha
  | cons hd tl ih =>
    rw [List.map_cons, List.nodup_cons] at hnd
    rw [lookupTracker] at ha hb
    by_cases h1 : hd.1 = k <;> by_cases h2 : hd.1 = k'
    · exact absurd (h1 ▸ h2) hk
    · rw [if_pos h1] at ha
      rw [if_neg h2] at hb
      injection ha with ha
      intro hab
      refine hnd.1 ?_
      rw [ha, hab]
      exact lookupTracker_some_mem_snd hb
    · rw [if_neg h1] at ha
      rw [if_pos h2] at hb
      injection hb with hb
      intro hab
      refine hnd.1 ?_
      rw [hb, ← hab]
      exact lookupTracker_some_mem_snd ha
    · rw [if_neg h1] at ha
      rw [if_neg h2] at hb
      exact ih hnd.2 ha hb

/-- C10: for every pirep id, the first `_get_tracker` call creates exactly one
tracker (cached under that id, numbered `nextTracker`); any call on a state
already holding the id returns that same instance and leaves the state
unchanged; other ids' cached trackers are untouched; the cache invariant is
preserved; and trackers of distinct ids are distinct instances. -/
theorem tracker_per_id_caching (st : BridgeState) (pid : Int)
    (hinv : trackersInv st) :
    lookupTracker (getTracker st pid).2.trackers pid = some (getTracker st pid).1 ∧
    getTracker (getTracker st pid).2 pid
        = ((getTracker st pid).1, (getTracker st pid).2) ∧
    (∀ pid', pid' ≠ pid →
      lookupTracker (getTracker st pid).2.trackers pid'
        = lookupTracker st.trackers pid') ∧
    trackersInv (getTracker st pid).2 ∧
    (∀ pid' t', pid' ≠ pid →
      lookupTracker (getTracker st pid).2.trackers pid' = some t' →
      t' ≠ (getTracker st pid).1) ∧
    (lookupTracker st.trackers pid = none →
      (getTracker st pid).2.trackers = (pid, (getTracker st pid).1) :: st.trackers ∧
      (getTracker st pid).1 = st.nextTracker) ∧
    (∀ t, lookupTracker st.trackers pid = some t →
      (getTracker st pid).2 = st ∧ (getTracker st pid).1 = t) := by
  cases hlk : lookupTracker st.trackers pid with
  | some t =>
    have hgt : getTracker st pid = (t, st) := by
      unfold getTracker
      rw [hlk]
    rw [hgt]
    refine ⟨hlk, ?_, fun _ _ => rfl, hinv, ?_, ?_, ?_⟩
    · unfold getTracker
      rw [hlk]
    · intro pid' t' hne hlk'
      exact lookup_ne_of_nodup_snd hinv.2.2 hne hlk' hlk
    · intro h
      exact Option.noConfusion h
    · intro t' ht'
      injection ht' with ht'
      exact ⟨rfl, ht'⟩
  | none =>
    have hgt : getTracker st pid
        = (st.nextTracker,
           { st with trackers := (pid, st.nextTracker) :: st.trackers,
                     nextTracker := st.nextTracker + 1 }) := by
      unfold getTracker
      rw [hlk]
    rw [hgt]
    have hlk1 : lookupTracker ((pid, st.nextTracker) :: st.trackers) pid
        = some st.nextTracker := by
      rw [lookupTracker, if_pos rfl]
    have hskip : ∀ pid', pid' ≠ pid →
        lookupTracker ((pid, st.nextTracker) :: st.trackers) pid'
          = lookupTracker st.trackers pid' := by
      intro pid' hne
      rw [lookupTracker, if_neg (fun h => hne h.symm)]
    refine ⟨hlk1, ?_, hskip, ⟨?_, ?_, ?_⟩, ?_, fun _ => ⟨rfl, rfl⟩, ?_⟩
    · unfold getTracker
      dsimp only
      rw [hlk1]
    · rintro p hp
      rcases List.mem_cons.mp hp with h | h
      · rw [h]
        exact Nat.lt_succ_self _
      · exact Nat.lt_succ_of_lt (hinv.1 p h)
    · rw [List.map_cons, List.nodup_cons]
      exact ⟨lookupTracker_none_not_mem_fst hlk, hinv.2.1⟩
    · rw [List.map_cons, List.nodup_cons]
      refine ⟨?_, hinv.2.2⟩
      intro hmem
      rcases List.mem_map.mp hmem with ⟨p, hp, hsnd⟩
      exact absurd (hsnd ▸ hinv.1 p hp) (lt_irrefl _)
    · intro pid' t' hne hlk'
      rw [hskip pid' hne] at hlk'
      have hlt : t' < st.nextTracker :=
        hinv.1 (pid', t') (lookupTracker_some_mem hlk')
      exact Nat.ne_of_lt hlt
    · intro t ht
      exact Option.noConfusion ht

/-- C10 witness: on a fresh bridge, asking twice for pirep id 3 creates one
tracker and then returns the very same instance with the state unchanged. -/
theorem tracker_per_id_caching_witness :
    trackersInv (initState "h" 1 none) ∧
    lookupTracker (getTracker (initState "h" 1 none) 3).2.trackers 3
        = some (getTracker (initState "h" 1 none) 3).1 ∧
    getTracker (getTracker (initState "h" 1 none) 3).2 3
        = ((getTracker (initState "h" 1 none) 3).1,
           (getTracker (initState "h" 1 none) 3).2) := by
  have hinv : trackersInv (initState "h" 1 none) := by
    refine ⟨?_, ?_, ?_⟩ <;> simp [initState]
  have h := tracker_per_id_caching (initState "h" 1 none) 3 hinv
  exact ⟨hinv, h.1, h.2.1⟩

/-- C6 counterexample: the snapshot returned by `status_snapshot()` contains
no `last_distance`, `last_fuel` or `last_flight_time` entry (here on the
freshly constructed bridge), so the claimed field list is wrong for this
revision. -/
theorem snapshot_claimed_fields_cex :
    lookupKey (statusSnapshot (initState "0.0.0.0" 47777 none)) "last_distance"
        = none ∧
    lookupKey (statusSnapshot (initState "0.0.0.0" 47777 none)) "last_fuel"
        = none ∧
    lookupKey (statusSnapshot (initState "0.0.0.0" 47777 none)) "last_flight_time"
        = none :=
  ⟨rfl, rfl, rfl⟩

/-- C6 amended: every call to `status_snapshot()` returns, under the lock, a
copy with exactly the keys running, host, port, packets_ok, packets_err,
last_packet_time, last_error, last_pirep_id, last_status, last_position
(a value copy) and log (a value copy) — there are no last_distance /
last_fuel / last_flight_time entries in this revision — and each entry equals
the corresponding bridge field, rebuilt as a value (copy-out), so the caller
holds no reference into internal state. -/
theorem snapshot_contents (st : BridgeState) :
    (statusSnapshot st).map Prod.fst
      = ["running", "host", "port", "packets_ok", "packets_err",
         "last_packet_time", "last_error", "last_pirep_id", "last_status",
         "last_position", "log"] ∧
    lookupKey (statusSnapshot st) "running" = some (.bool st.running) ∧
    lookupKey (statusSnapshot st) "host" = some (.str st.host) ∧
    lookupKey (statusSnapshot st) "port" = some (.int st.port) ∧
    lookupKey (statusSnapshot st) "packets_ok"
        = some (.int (st.packets_ok : Int)) ∧
    lookupKey (statusSnapshot st) "packets_err"
        = some (.int (st.packets_err : Int)) ∧
    lookupKey (statusSnapshot st) "last_packet_time"
        = some (match st.last_packet_time with
                | some t => Json.float t
                | none => Json.null) ∧
    lookupKey (statusSnapshot st) "last_error"
        = some (match st.last_error with
                | some e => Json.str e
                | none => Json.null) ∧
    lookupKey (statusSnapshot st) "last_pirep_id"
        = some (match st.last_pirep_id with
                | some i => Json.int i
                | none => Json.null) ∧
    lookupKey (statusSnapshot st) "last_status" = some (st.last_status.getD .null) ∧
    lookupKey (statusSnapshot st) "last_position"
        = some (match st.last_position with
                | some kvs => Json.obj kvs
                | none => Json.null) ∧
    lookupKey (statusSnapshot st) "log" = some (.arr (st.log.map .str)) :=
  ⟨rfl, rfl, rfl, rfl, rfl, rfl, rfl, rfl, rfl, rfl, rfl, rfl⟩

@[simp] lemma getTracker_packets_ok (st : BridgeState) (pid : Int) :
    (getTracker st pid).2.packets_ok = st.packets_ok := by
  unfold getTracker
  split <;> rfl

@[simp] lemma getTracker_packets_err (st : BridgeState) (pid : Int) :
    (getTracker st pid).2.packets_err = st.packets_err := by
  unfold getTracker
  split <;> rfl

@[simp] lemma getTracker_log (st : BridgeState) (pid : Int) :
    (getTracker st pid).2.log = st.log := by
  unfold getTracker
  split <;> rfl

@[simp] lemma getTracker_last_error (st : BridgeState) (pid : Int) :
    (getTracker st pid).2.last_error = st.last_error := by
  unfold getTracker
  split <;> rfl

@[simp] lemma getTracker_last_status (st : BridgeState) (pid : Int) :
    (getTracker st pid).2.last_status = st.last_status := by
  unfold getTracker
  split <;> rfl

@[simp] lemma getTracker_last_position (st : BridgeState) (pid : Int) :
    (getTracker st pid).2.last_position = st.last_position := by
  unfold getTracker
  split <;> rfl

@[simp] lemma getTracker_last_packet_time (st : BridgeState) (pid : Int) :
    (getTracker st pid).2.last_packet_time = st.last_packet_time := by
  unfold getTracker
  split <;> rfl

@[simp] lemma getTracker_provider (st : BridgeState) (pid : Int) :
    (getTracker st pid).2.provider = st.provider := by
  unfold getTracker
  split <;> rfl

/-- Processing a decoded datagram that is an empty JSON object counts one ok
packet and no error, whichever way the pirep id resolves. -/
lemma handle_empty_obj (send : Int → SendArgs → Except String Unit)
    (st : BridgeState) (now : ℚ) (ts : String) :
    ∃ st', handlePacket send st now ts (.ok (Json.obj [])) = .ok st' ∧
      st'.packets_ok = st.packets_ok + 1 ∧ st'.packets_err = st.packets_err := by
  unfold handlePacket
  cases hres : resolvePirepId st.provider (pyGet [] "pirep_id") with
  | none =>
    simp only [hres]
    exact ⟨_, rfl, rfl, rfl⟩
  | some pid =>
    simp only [hres]
    refine ⟨_, rfl, ?_, ?_⟩ <;> simp [pyGet, lookupKey]

/-- C2: a datagram whose bytes fail to decode (invalid UTF-8 or invalid JSON)
is handled by incrementing `packets_err` by exactly 1, leaving `packets_ok`
unchanged, setting `last_error` to the decode-error description, appending
one log line, and doing nothing else (the returned state is exactly the input
state with those three fields changed); the receive loop then continues, and
a valid packet processed immediately afterwards is counted ok with no further
error. -/
theorem malformed_datagram_tolerance (send : Int → SendArgs → Except String Unit)
    (st : BridgeState) (now now' : ℚ) (ts ts' : String) (e : String) :
    handlePacket send st now ts (.error e)
      = .ok { st with packets_err := st.packets_err + 1,
                      last_error := some ("JSON decode error: " ++ e),
                      log := appendLog st.log ts ("JSON decode error: " ++ e) } ∧
    (runLoop send st
        [(now, ts, .data (.error e)),
         (now', ts', .data (.ok (Json.obj [])))]).packets_ok
      = st.packets_ok + 1 ∧
    (runLoop send st
        [(now, ts, .data (.error e)),
         (now', ts', .data (.ok (Json.obj [])))]).packets_err
      = st.packets_err + 1 := by
  obtain ⟨st'', h1, hok, herr⟩ :=
    handle_empty_obj send
      { st with packets_err := st.packets_err + 1,
                last_error := some ("JSON decode error: " ++ e),
                log := appendLog st.log ts ("JSON decode error: " ++ e) }
      now' ts'
  have hfirst : loopStep send st (now, ts, .data (.error e))
      = { st with packets_err := st.packets_err + 1,
                  last_error := some ("JSON decode error: " ++ e),
                  log := appendLog st.log ts ("JSON decode error: " ++ e) } := rfl
  have hrun : runLoop send st
      [(now, ts, .data (.error e)), (now', ts', .data (.ok (Json.obj [])))]
      = st'' := by
    show loopStep send (loopStep send st (now, ts, .data (.error e)))
        (now', ts', .data (.ok (Json.obj []))) = st''
    rw [hfirst]
    simp only [loopStep]
    rw [h1]
  refine ⟨rfl, ?_, ?_⟩
  · rw [hrun, hok]
  · rw [hrun, herr]

/-- C3: for a successfully decoded packet with a resolved pirep id, an
exception raised by the invoked handler (`tracker.send_position`) is caught:
it is counted toward `packets_err`, recorded as `last_error`, and logged; the
packet-handling routine still returns normally (no propagation), and
`packets_ok` is still incremented and `last_packet_time` still set for that
same packet. -/
theorem handler_failure_isolation (send : Int → SendArgs → Except String Unit)
    (st : BridgeState) (now : ℚ) (ts : String) (kvs pkvs : List (String × Json))
    (pid : Int) (e : String)
    (hres : resolvePirepId st.provider (pyGet kvs "pirep_id") = some pid)
    (hpos : pyGet kvs "position" = Json.obj pkvs)
    (hsend : sendAttempt (send pid) pkvs = .error e) :
    ∃ st', handlePacket send st now ts (.ok (.obj kvs)) = .ok st' ∧
      st'.packets_err = st.packets_err + 1 ∧
      st'.last_error = some ("send_position: " ++ e) ∧
      st'.packets_ok = st.packets_ok + 1 ∧
      st'.last_packet_time = some now ∧
      ∃ line, st'.log
        = appendLog (appendLog st.log ts ("send_position: " ++ e)) ts line := by
  unfold handlePacket
  simp only [hres, hpos, hsend]
  exact ⟨_, rfl, by simp, rfl, by simp, rfl,
    okLine pid (pyGet kvs "status") (getTracker st pid).2.last_position,
    by rw [getTracker_log]⟩

/-- C3 witness: on a fresh bridge, a packet for pirep 7 with a coercible
position and a send that raises `boom` is still counted ok while the handler
failure is recorded. -/
theorem handler_failure_isolation_witness :
    resolvePirepId (initState "h" 1 none).provider (pyGet failPacketKvs "pirep_id")
        = some 7 ∧
    pyGet failPacketKvs "position" = Json.obj failPosKvs ∧
    sendAttempt (sendFailDef 7) failPosKvs = .error "boom" ∧
    ∃ st', handlePacket sendFailDef (initState "h" 1 none) 0 "t"
             (.ok (.obj failPacketKvs)) = .ok st' ∧
      st'.packets_err = (initState "h" 1 none).packets_err + 1 ∧
      st'.last_error = some ("send_position: " ++ "boom") ∧
      st'.packets_ok = (initState "h" 1 none).packets_ok + 1 ∧
      st'.last_packet_time = some 0 ∧
      ∃ line, st'.log
        = appendLog (appendLog (initState "h" 1 none).log "t"
            ("send_position: " ++ "boom")) "t" line :=
  ⟨rfl, rfl, rfl,
   handler_failure_isolation sendFailDef (initState "h" 1 none) 0 "t"
     failPacketKvs failPosKvs 7 "boom" rfl rfl rfl⟩

/-- C4 counterexample: the well-formed JSON-object datagram
`\x7b"pirep_id": 1, "position": \x7b\x7d\x7d` (no `lat` in its position dict)
drives the handler through `float(pos["lat"])`, whose `KeyError` is counted:
`packets_err` does change, refuting "packets_err is unchanged ... regardless
of how sparse each packet's content is". -/
theorem ok_counter_claim_cex :
    (loopStep sendOkDef (initState "0.0.0.0" 47777 none)
        (0, "t", .data (.ok sparsePosPacket))).packets_err
      ≠ (initState "0.0.0.0" 47777 none).packets_err := by
  decide

/-- A clean packet is counted ok, adds no error, and leaves the provider
untouched. -/
lemma clean_step_counts (send : Int → SendArgs → Except String Unit)
    (st : BridgeState) (now : ℚ) (ts : String) (p : Json)
    (h : cleanPacket st.provider send p = true) :
    ∃ st', handlePacket send st now ts (.ok p) = .ok st' ∧
      st'.packets_ok = st.packets_ok + 1 ∧
      st'.packets_err = st.packets_err ∧
      st'.provider = st.provider := by
  cases p with
  | obj kvs =>
    unfold cleanPacket at h
    unfold handlePacket
    cases hres : resolvePirepId st.provider (pyGet kvs "pirep_id") with
    | none =>
      simp only [hres]
      split
      · exact ⟨_, rfl, by simp, by simp, by simp⟩
      · exact ⟨_, rfl, by simp, by simp, by simp⟩
    | some pid =>
      simp only [hres] at h ⊢
      split at h
      · split at h
        · rename_i b a hsend
          simp only [hsend]
          exact ⟨_, rfl, by simp, by simp, by simp⟩
        · exact absurd h (by simp)
      · exact ⟨_, rfl, by simp, by simp, by simp⟩
  | null => exact absurd h (by simp [cleanPacket])
  | bool b => exact absurd h (by simp [cleanPacket])
  | int n => exact absurd h (by simp [cleanPacket])
  | float q => exact absurd h (by simp [cleanPacket])
  | str s => exact absurd h (by simp [cleanPacket])
  | arr xs => exact absurd h (by simp [cleanPacket])

lemma cleanPacket_empty_obj (provider : Option (Option Int))
    (send : Int → SendArgs → Except String Unit) :
    cleanPacket provider send (Json.obj []) = true := by
  unfold cleanPacket
  cases provider with
  | none => rfl
  | some o => cases o <;> rfl

/-- Every decoded datagram that is a JSON object — no matter how sparse, and
whatever the handler outcome — is counted in `packets_ok` exactly once: the
success accounting of `_handle_packet` runs on every path of both the
no-PIREP branch and the pirep branch (in particular after a caught
`send_position` exception). -/
lemma obj_step_ok (send : Int → SendArgs → Except String Unit)
    (st : BridgeState) (now : ℚ) (ts : String) (kvs : List (String × Json)) :
    ∃ st', handlePacket send st now ts (.ok (.obj kvs)) = .ok st' ∧
      st'.packets_ok = st.packets_ok + 1 ∧
      st'.provider = st.provider := by
  unfold handlePacket
  cases hres : resolvePirepId st.provider (pyGet kvs "pirep_id") with
  | none =>
    simp only [hres]
    split
    · exact ⟨_, rfl, by simp, by simp⟩
    · exact ⟨_, rfl, by simp, by simp⟩
  | some pid =>
    simp only [hres]
    split
    · split
      · exact ⟨_, rfl, by simp, by simp⟩
      · exact ⟨_, rfl, by simp, by simp⟩
    · exact ⟨_, rfl, by simp, by simp⟩

/-- C4 amended: for every sequence of N well-formed JSON-object datagrams,
`packets_ok` increases by exactly N, regardless of how sparse each packet's
content is; `packets_err` is unchanged provided each packet takes no error
path — its `position`, when present as a dict under a resolved pirep id, has
coercible `lat`/`lon` and its send succeeds (`cleanPacket`).  A packet with
no recognizable fields at all is always clean, so it is counted in
`packets_ok` and never in `packets_err`.  (Without the clean-packet condition
the `packets_err` conjunct fails: see the counterexample, where a
merely-sparse position dict is routed to the error counter by the `KeyError`
of `float(pos["lat"])` — though `packets_ok` still increases for it.) -/
theorem ok_counter_monotonicity (send : Int → SendArgs → Except String Unit)
    (st : BridgeState) (items : List (ℚ × String × Json))
    (hobj : ∀ it ∈ items, isObjPacket it.2.2 = true) :
    (runLoop send st
        (items.map (fun it => (it.1, it.2.1, RecvEvent.data (.ok it.2.2))))).packets_ok
      = st.packets_ok + items.length ∧
    ((∀ it ∈ items, cleanPacket st.provider send it.2.2 = true) →
      (runLoop send st
          (items.map (fun it => (it.1, it.2.1, RecvEvent.data (.ok it.2.2))))).packets_err
        = st.packets_err) ∧
    cleanPacket st.provider send (Json.obj []) = true := by
  refine ⟨?_, ?_, cleanPacket_empty_obj st.provider send⟩
  · induction items generalizing st with
    | nil => simp [runLoop]
    | cons it rest ih =>
      have hhead := hobj it (List.mem_cons_self _ _)
      obtain ⟨kvs, hkvs⟩ : ∃ kvs, it.2.2 = Json.obj kvs := by
        cases hd : it.2.2 <;> rw [hd] at hhead <;>
          first
          | exact ⟨_, rfl⟩
          | simp [isObjPacket] at hhead
      obtain ⟨st', hs, hok, hprov⟩ := obj_step_ok send st it.1 it.2.1 kvs
      have hstep : loopStep send st (it.1, it.2.1, .data (.ok it.2.2)) = st' := by
        simp only [loopStep, hkvs]
        rw [hs]
      have hrest : ∀ it' ∈ rest, isObjPacket it'.2.2 = true :=
        fun it' hit' => hobj it' (List.mem_cons_of_mem _ hit')
      have hfold : runLoop send st
          ((it :: rest).map (fun it => (it.1, it.2.1, RecvEvent.data (.ok it.2.2))))
          = runLoop send st'
              (rest.map (fun it => (it.1, it.2.1, RecvEvent.data (.ok it.2.2)))) := by
        simp only [List.map_cons, runLoop, List.foldl_cons, hstep]
      rw [hfold, ih st' hrest]
      simp only [List.length_cons]
      omega
  · intro h
    clear hobj
    induction items generalizing st with
    | nil => simp [runLoop]
    | cons it rest ih =>
      obtain ⟨st', hs, hok, herr, hprov⟩ :=
        clean_step_counts send st it.1 it.2.1 it.2.2
          (h it (List.mem_cons_self _ _))
      have hstep : loopStep send st (it.1, it.2.1, .data (.ok it.2.2)) = st' := by
        simp only [loopStep]
        rw [hs]
      have hrest : ∀ it' ∈ rest, cleanPacket st'.provider send it'.2.2 = true := by
        intro it' hit'
        rw [hprov]
        exact h it' (List.mem_cons_of_mem _ hit')
      have hfold : runLoop send st
          ((it :: rest).map (fun it => (it.1, it.2.1, RecvEvent.data (.ok it.2.2))))
          = runLoop send st'
              (rest.map (fun it => (it.1, it.2.1, RecvEvent.data (.ok it.2.2)))) := by
        simp only [List.map_cons, runLoop, List.foldl_cons, hstep]
      rw [hfold, ih st' hrest]
      omega

/-- C4 witness: an empty-object datagram followed by a fully-populated one,
with a succeeding send: both are objects (so ok counts up by two) and both
are clean (so, by the implication, the error counter stays at zero). -/
theorem ok_counter_monotonicity_witness :
    (∀ it ∈ [((0 : ℚ), ("t", Json.obj [])), ((1 : ℚ), ("u", fullPacket))],
        isObjPacket it.2.2 = true) ∧
    ((runLoop sendOkDef (initState "h" 1 (some (some 1)))
        ([((0 : ℚ), ("t", Json.obj [])), ((1 : ℚ), ("u", fullPacket))].map
          (fun it => (it.1, it.2.1, RecvEvent.data (.ok it.2.2))))).packets_ok
      = (initState "h" 1 (some (some 1))).packets_ok
          + [((0 : ℚ), ("t", Json.obj [])), ((1 : ℚ), ("u", fullPacket))].length ∧
     ((∀ it ∈ [((0 : ℚ), ("t", Json.obj [])), ((1 : ℚ), ("u", fullPacket))],
         cleanPacket (initState "h" 1 (some (some 1))).provider sendOkDef it.2.2
           = true) →
       (runLoop sendOkDef (initState "h" 1 (some (some 1)))
          ([((0 : ℚ), ("t", Json.obj [])), ((1 : ℚ), ("u", fullPacket))].map
            (fun it => (it.1, it.2.1, RecvEvent.data (.ok it.2.2))))).packets_err
        = (initState "h" 1 (some (some 1))).packets_err) ∧
     cleanPacket (initState "h" 1 (some (some 1))).provider sendOkDef (Json.obj [])
      = true) ∧
    (runLoop sendOkDef (initState "h" 1 (some (some 1)))
        ([((0 : ℚ), ("t", Json.obj [])), ((1 : ℚ), ("u", fullPacket))].map
          (fun it => (it.1, it.2.1, RecvEvent.data (.ok it.2.2))))).packets_err
      = (initState "h" 1 (some (some 1))).packets_err :=
  ⟨by decide,
   ok_counter_monotonicity sendOkDef (initState "h" 1 (some (some 1)))
     [((0 : ℚ), ("t", Json.obj [])), ((1 : ℚ), ("u", fullPacket))] (by decide),
   (ok_counter_monotonicity sendOkDef (initState "h" 1 (some (some 1)))
     [((0 : ℚ), ("t", Json.obj [])), ((1 : ℚ), ("u", fullPacket))] (by decide)).2.1
     (by decide)⟩

/-- The no-active-PIREP branch of `_handle_packet` in closed form. -/
lemma handle_no_pirep (send : Int → SendArgs → Except String Unit)
    (st : BridgeState) (now : ℚ) (ts : String) (kvs : List (String × Json))
    (hres : resolvePirepId st.provider (pyGet kvs "pirep_id") = none) :
    handlePacket send st now ts (.ok (.obj kvs)) = .ok
      { st with
          last_status :=
            if truthy (pyGet kvs "status") then some (pyGet kvs "status")
            else st.last_status,
          last_position :=
            match (if truthy (pyGet kvs "position") then pyGet kvs "position"
                   else Json.obj []) with
            | Json.obj pkvs => some (sixProj pkvs)
            | _ => st.last_position,
          packets_ok := st.packets_ok + 1,
          last_packet_time := some now,
          log := appendLog st.log ts
            "OK: no active PIREP; received status/position" } := by
  unfold handlePacket
  simp only [hres]
  cases hp : (if truthy (pyGet kvs "position") then pyGet kvs "position"
              else Json.obj []) <;>
    simp only [hp]

/-- In the pirep branch, `last_status` is never written (the phase-update
block of the source is commented out). -/
lemma handle_pirep_last_status (send : Int → SendArgs → Except String Unit)
    (st : BridgeState) (now : ℚ) (ts : String) (kvs : List (String × Json))
    (pid : Int) (st' : BridgeState)
    (hres : resolvePirepId st.provider (pyGet kvs "pirep_id") = some pid)
    (hdone : handlePacket send st now ts (.ok (.obj kvs)) = .ok st') :
    st'.last_status = st.last_status := by
  unfold handlePacket at hdone
  simp only [hres] at hdone
  split at hdone
  · split at hdone
    · injection hdone with hdone
      rw [← hdone]
      simp
    · injection hdone with hdone
      rw [← hdone]
      simp
  · injection hdone with hdone
    rw [← hdone]
    simp

/-- In the pirep branch, a present position dict whose send succeeds
overwrites `last_position` wholesale with the six-key projection. -/
lemma handle_pirep_position_overwrite (send : Int → SendArgs → Except String Unit)
    (st : BridgeState) (now : ℚ) (ts : String) (kvs pk : List (String × Json))
    (pid : Int) (u : Unit) (st' : BridgeState)
    (hres : resolvePirepId st.provider (pyGet kvs "pirep_id") = some pid)
    (hpos : pyGet kvs "position" = Json.obj pk)
    (hsend : sendAttempt (send pid) pk = .ok u)
    (hdone : handlePacket send st now ts (.ok (.obj kvs)) = .ok st') :
    st'.last_position = some (sixProj pk) := by
  unfold handlePacket at hdone
  simp only [hres, hpos, hsend] at hdone
  injection hdone with hdone
  rw [← hdone]

/-- C5 counterexample: from a fresh bridge (packets carrying pirep id 1), a
status-only packet followed by a position-only packet leaves `last_status`
still unset — in this revision the pirep-id path never updates
`last_status` (the phase-update block is commented out), so the snapshot does
not expose the new status, refuting the claimed scenario. -/
theorem status_then_position_cex :
    (runLoop sendOkDef (initState "0.0.0.0" 47777 none)
        [(0, "t", .data (.ok statusOnlyPacket)),
         (1, "u", .data (.ok posOnlyPacket))]).last_status = none ∧
    (runLoop sendOkDef (initState "0.0.0.0" 47777 none)
        [(0, "t", .data (.ok statusOnlyPacket)),
         (1, "u", .data (.ok posOnlyPacket))]).last_position
      = some (sixProj [("lat", .float 40), ("lon", .float (-73))]) :=
  ⟨rfl, rfl⟩

/-- C5 amended: only the no-active-PIREP branch updates `last_status` — for
any packet it handles, `last_status` is set exactly when a truthy status is
present and retained otherwise, while `last_position` is overwritten
wholesale with the six-key projection of the packet's position (keys absent
from the packet become null; a packet without any position overwrites
`last_position` with the all-null projection) — the sixth conjunct states
this single-packet rule in general.  When a pirep id resolves, `last_status`
is never updated (seventh conjunct), and a present position dict whose send
succeeds overwrites `last_position` wholesale with the six-key projection
(eighth conjunct).  In the no-PIREP mode, status-only followed by
position-only still leaves both the new status and the new position exposed,
with both packets counted ok (first five conjuncts). -/
theorem no_pirep_last_write_wins (send : Int → SendArgs → Except String Unit)
    (st : BridgeState) (now now' : ℚ) (ts ts' : String) (s : Json)
    (pkvs : List (String × Json))
    (hprov : st.provider = none) (hs : truthy s = true) :
    (runLoop send st
        [(now, ts, .data (.ok (Json.obj [("status", s)]))),
         (now', ts', .data (.ok (Json.obj [("position", Json.obj pkvs)])))]).last_status
      = some s ∧
    (runLoop send st
        [(now, ts, .data (.ok (Json.obj [("status", s)]))),
         (now', ts', .data (.ok (Json.obj [("position", Json.obj pkvs)])))]).last_position
      = some (sixProj pkvs) ∧
    (runLoop send st
        [(now, ts, .data (.ok (Json.obj [("status", s)]))),
         (now', ts', .data (.ok (Json.obj [("position", Json.obj pkvs)])))]).packets_ok
      = st.packets_ok + 2 ∧
    (runLoop send st
        [(now, ts, .data (.ok (Json.obj [("status", s)]))),
         (now', ts', .data (.ok (Json.obj [("position", Json.obj pkvs)])))]).packets_err
      = st.packets_err ∧
    (loopStep send st (now, ts, .data (.ok (Json.obj [("status", s)])))).last_position
      = some (sixProj []) ∧
    (∀ (st1 : BridgeState) (n : ℚ) (t : String) (kvs : List (String × Json)),
      resolvePirepId st1.provider (pyGet kvs "pirep_id") = none →
      ∃ st2, handlePacket send st1 n t (.ok (.obj kvs)) = .ok st2 ∧
        st2.last_status
          = (if truthy (pyGet kvs "status") then some (pyGet kvs "status")
             else st1.last_status) ∧
        st2.last_position
          = (match (if truthy (pyGet kvs "position") then pyGet kvs "position"
                    else Json.obj []) with
             | Json.obj pk => some (sixProj pk)
             | _ => st1.last_position)) ∧
    (∀ (st1 st2 : BridgeState) (n : ℚ) (t : String)
       (kvs : List (String × Json)) (pid : Int),
      resolvePirepId st1.provider (pyGet kvs "pirep_id") = some pid →
      handlePacket send st1 n t (.ok (.obj kvs)) = .ok st2 →
      st2.last_status = st1.last_status) ∧
    (∀ (st1 st2 : BridgeState) (n : ℚ) (t : String)
       (kvs pk : List (String × Json)) (pid : Int) (u : Unit),
      resolvePirepId st1.provider (pyGet kvs "pirep_id") = some pid →
      pyGet kvs "position" = Json.obj pk →
      sendAttempt (send pid) pk = .ok u →
      handlePacket send st1 n t (.ok (.obj kvs)) = .ok st2 →
      st2.last_position = some (sixProj pk)) := by
  have hres1 : resolvePirepId st.provider (pyGet [("status", s)] "pirep_id")
      = none := by
    simp only [hprov]
    rfl
  have h1 := handle_no_pirep send st now ts [("status", s)] hres1
  have hg : pyGet [("status", s)] "status" = s := rfl
  have hq : pyGet [("status", s)] "position" = Json.null := rfl
  have hA : loopStep send st (now, ts, .data (.ok (Json.obj [("status", s)])))
      = { st with
            last_status := some s,
            last_position := some (sixProj []),
            packets_ok := st.packets_ok + 1,
            last_packet_time := some now,
            log := appendLog st.log ts
              "OK: no active PIREP; received status/position" } := by
    simp only [loopStep]
    rw [h1]
    simp [hg, hq, hs, show truthy Json.null = false from rfl]
  have hres2 : resolvePirepId
      ({ st with
            last_status := some s,
            last_position := some (sixProj []),
            packets_ok := st.packets_ok + 1,
            last_packet_time := some now,
            log := appendLog st.log ts
              "OK: no active PIREP; received status/position" } : BridgeState).provider
      (pyGet [("position", Json.obj pkvs)] "pirep_id") = none := by
    show resolvePirepId st.provider (pyGet [("position", Json.obj pkvs)] "pirep_id")
        = none
    simp only [hprov]
    rfl
  have h2 := handle_no_pirep send _ now' ts' [("position", Json.obj pkvs)] hres2
  have hB : runLoop send st
      [(now, ts, .data (.ok (Json.obj [("status", s)]))),
       (now', ts', .data (.ok (Json.obj [("position", Json.obj pkvs)])))]
      = (match (if truthy (pyGet [("position", Json.obj pkvs)] "position")
               then pyGet [("position", Json.obj pkvs)] "position" else Json.obj []) with
         | Json.obj pk =>
           { st with
               last_status := some s,
               last_position := some (sixProj pk),
               packets_ok := st.packets_ok + 1 + 1,
               last_packet_time := some now',
               log := appendLog (appendLog st.log ts
                 "OK: no active PIREP; received status/position") ts'
                 "OK: no active PIREP; received status/position" }
         | _ =>
           { st with
               last_status := some s,
               last_position := some (sixProj []),
               packets_ok := st.packets_ok + 1 + 1,
               last_packet_time := some now',
               log := appendLog (appendLog st.log ts
                 "OK: no active PIREP; received status/position") ts'
                 "OK: no active PIREP; received status/position" }) := by
    show loopStep send (loopStep send st (now, ts, .data (.ok (Json.obj [("status", s)]))))
        (now', ts', .data (.ok (Json.obj [("position", Json.obj pkvs)]))) = _
    rw [hA]
    simp only [loopStep]
    rw [h2]
    cases hp : (if truthy (pyGet [("position", Json.obj pkvs)] "position")
                then pyGet [("position", Json.obj pkvs)] "position" else Json.obj []) <;>
      simp only [hp] <;> rfl
  refine ⟨?_, ?_, ?_, ?_, ?_, ?_, ?_, ?_⟩
  · rw [hB]
    cases hp : (if truthy (pyGet [("position", Json.obj pkvs)] "position")
                then pyGet [("position", Json.obj pkvs)] "position" else Json.obj []) <;>
      simp only [hp]
  · rw [hB]
    cases pkvs with
    | nil => rfl
    | cons a l => rfl
  · rw [hB]
    cases hp : (if truthy (pyGet [("position", Json.obj pkvs)] "position")
                then pyGet [("position", Json.obj pkvs)] "position" else Json.obj []) <;>
      simp only [hp]
  · rw [hB]
    cases hp : (if truthy (pyGet [("position", Json.obj pkvs)] "position")
                then pyGet [("position", Json.obj pkvs)] "position" else Json.obj []) <;>
      simp only [hp]
  · rw [hA]
  · intro st1 n t kvs hres0
    exact ⟨_, handle_no_pirep send st1 n t kvs hres0, rfl, rfl⟩
  · intro st1 st2 n t kvs pid hres0 hdone
    exact handle_pirep_last_status send st1 n t kvs pid st2 hres0 hdone
  · intro st1 st2 n t kvs pk pid u hres0 hpos0 hsend0 hdone
    exact handle_pirep_position_overwrite send st1 n t kvs pk pid u st2
      hres0 hpos0 hsend0 hdone

/-- C5 witness: on a fresh bridge with no pirep provider, status-only `ENR`
followed by a position-only packet leaves both the new status and the new
position in the state. -/
theorem no_pirep_last_write_wins_witness :
    (initState "0.0.0.0" 47777 none).provider = none ∧
    truthy (Json.str "ENR") = true ∧
    ((runLoop sendOkDef (initState "0.0.0.0" 47777 none)
        [(0, "t", .data (.ok (Json.obj [("status", Json.str "ENR")]))),
         (1, "u", .data (.ok (Json.obj [("position",
            Json.obj [("lat", Json.float 40), ("lon", Json.float (-73))])])))]).last_status
      = some (Json.str "ENR") ∧
     (runLoop sendOkDef (initState "0.0.0.0" 47777 none)
        [(0, "t", .data (.ok (Json.obj [("status", Json.str "ENR")]))),
         (1, "u", .data (.ok (Json.obj [("position",
            Json.obj [("lat", Json.float 40), ("lon", Json.float (-73))])])))]).last_position
      = some (sixProj [("lat", Json.float 40), ("lon", Json.float (-73))]) ∧
     (runLoop sendOkDef (initState "0.0.0.0" 47777 none)
        [(0, "t", .data (.ok (Json.obj [("status", Json.str "ENR")]))),
         (1, "u", .data (.ok (Json.obj [("position",
            Json.obj [("lat", Json.float 40), ("lon", Json.float (-73))])])))]).packets_ok
      = (initState "0.0.0.0" 47777 none).packets_ok + 2 ∧
     (runLoop sendOkDef (initState "0.0.0.0" 47777 none)
        [(0, "t", .data (.ok (Json.obj [("status", Json.str "ENR")]))),
         (1, "u", .data (.ok (Json.obj [("position",
            Json.obj [("lat", Json.float 40), ("lon", Json.float (-73))])])))]).packets_err
      = (initState "0.0.0.0" 47777 none).packets_err ∧
     (loopStep sendOkDef (initState "0.0.0.0" 47777 none)
        (0, "t", .data (.ok (Json.obj [("status", Json.str "ENR")])))).last_position
      = some (sixProj [])) :=
  ⟨rfl, rfl, by
   have h := no_pirep_last_write_wins sendOkDef (initState "0.0.0.0" 47777 none)
     0 1 "t" "u" (Json.str "ENR")
     [("lat", Json.float 40), ("lon", Json.float (-73))] rfl rfl
   exact ⟨h.1, h.2.1, h.2.2.1, h.2.2.2.1, h.2.2.2.2.1⟩⟩

end UdpBridgeModel
